import Mathlib

/-!
Verification development for the Face-Triggered-Recording-WebApp-Component
repository.

The repository ships three client implementations and a FastAPI backend.
The backend source (app/main.py, app/face_detection.py) is not part of the
checked-in sources; where a property is decided by that backend, the
corresponding definition is modelled from the design document and marked
`Modelled from the spec:` in its doc comment.  Everything else is a direct
shallow embedding of the JavaScript/TypeScript sources:

* `AppState` and its operations embed the `FaceRecordingApp` class of
  static/app.js (client-side detection loop, MediaRecorder handling,
  upload, recording list rendering).
* `FRState` and its operations embed the `FaceRecorder` class of
  app/static/js/app.js (WebSocket status channel, start/stop monitoring).
* `Session`, `scStep`, `scStop`, `finalizeWriter` and `catalogList` are
  modelled from the spec for the missing backend controller, writer and
  catalog.
-/

/-- Outcome of one round-trip to the face-detection endpoint, as observed by
`detectFace` in static/app.js: either an HTTP 200 with a boolean
`face_detected` field, or a failure (a non-ok response and a thrown fetch
error act identically on the client state: both only log). -/
inductive DetectOutcome
  | success (faceDetected : Bool)
  | failure
deriving DecidableEq, Repr

/-- State of the `FaceRecordingApp` class in static/app.js.  DOM-only fields
(status labels, button classes) are omitted; `activeRecorders` counts the
MediaRecorder objects currently in the recording state, `uploads` counts
completed POSTs to /api/upload-recording, and `recordedChunks` holds the
sizes of the buffered Blob chunks. -/
structure AppState where
  stream : Bool
  isRecording : Bool
  faceDetectionActive : Bool
  lastFaceDetected : Bool
  autoRecord : Bool
  detectionTimer : Bool
  recordingTimer : Bool
  hasMediaRecorder : Bool
  recordedChunks : List Nat
  activeRecorders : Nat
  uploads : Nat
deriving DecidableEq, Repr

/-- The constructor state of `FaceRecordingApp`: no stream, not recording,
detection inactive, `lastFaceDetected = false`, empty chunk buffer. -/
def initState : AppState :=
  { stream := false, isRecording := false, faceDetectionActive := false
    lastFaceDetected := false, autoRecord := false, detectionTimer := false
    recordingTimer := false, hasMediaRecorder := false, recordedChunks := []
    activeRecorders := 0, uploads := 0 }

/-- `saveRecording` of static/app.js: returns at once when
`recordedChunks.length === 0`, otherwise builds a Blob from the chunks and
uploads it. -/
def saveRecording (s : AppState) : AppState :=
  if s.recordedChunks.length = 0 then s
  else { s with uploads := s.uploads + 1 }

/-- `startRecording` of static/app.js: a no-op unless a stream is present and
no recording is in progress; otherwise clears the chunk buffer, creates a
fresh MediaRecorder and starts it. -/
def startRecording (s : AppState) : AppState :=
  if !s.stream || s.isRecording then s
  else
    { s with recordedChunks := [], hasMediaRecorder := true
             activeRecorders := s.activeRecorders + 1, isRecording := true }

/-- `stopRecording` of static/app.js: a no-op unless recording with a live
MediaRecorder; otherwise clears the auto-stop timer, stops the recorder
(whose onstop handler runs `saveRecording`) and clears `isRecording`. -/
def stopRecording (s : AppState) : AppState :=
  if !s.isRecording || !s.hasMediaRecorder then s
  else
    saveRecording
      { s with recordingTimer := false
               activeRecorders := s.activeRecorders - 1, isRecording := false }

/-- `startAutoRecording` of static/app.js: calls `startRecording` and then
unconditionally arms the auto-stop timeout. -/
def startAutoRecording (s : AppState) : AppState :=
  { startRecording s with recordingTimer := true }

/-- The auto-stop timeout callback armed by `startAutoRecording`: stops the
recording if one is still running. -/
def recTimerFire (s : AppState) : AppState :=
  if s.isRecording then stopRecording s else s

/-- One pass of `detectFace` in static/app.js, driven by the outcome of the
/api/detect-face call.  Returns immediately when detection is inactive or the
stream is gone; on success it may trigger `startAutoRecording` (only on a
rising edge: face now, `lastFaceDetected` false, not recording, auto-record
enabled) and records the result in `lastFaceDetected`; on failure it only
logs.  In every non-early-return case the next detection is scheduled. -/
def detectFaceStep (s : AppState) (o : DetectOutcome) : AppState :=
  if !s.faceDetectionActive || !s.stream then s
  else
    let s1 :=
      match o with
      | .success fd =>
          let s2 :=
            if s.autoRecord && fd && !s.lastFaceDetected && !s.isRecording
            then startAutoRecording s else s
          { s2 with lastFaceDetected := fd }
      | .failure => s
    { s1 with detectionTimer := true }

/-- `startFaceDetection` of static/app.js: returns at once if already active,
otherwise marks detection active (the loop itself is driven by
`detectFaceStep` events). -/
def startFaceDetection (s : AppState) : AppState :=
  if s.faceDetectionActive then s
  else { s with faceDetectionActive := true }

/-- `stopFaceDetection` of static/app.js: clears the active flag and the
pending detection timer.  Note it does not reset `lastFaceDetected`. -/
def stopFaceDetection (s : AppState) : AppState :=
  { s with faceDetectionActive := false, detectionTimer := false }

/-- `startCamera` of static/app.js on the success path: acquires the stream
and starts face detection. -/
def startCamera (s : AppState) : AppState :=
  startFaceDetection { s with stream := true }

/-- `stopCamera` of static/app.js: stops face detection, stops any active
recording, and releases the stream. -/
def stopCamera (s : AppState) : AppState :=
  let s1 := stopFaceDetection s
  let s2 := if s1.isRecording then stopRecording s1 else s1
  { s2 with stream := false }

/-- `toggleManualRecording` of static/app.js. -/
def toggleManualRecording (s : AppState) : AppState :=
  if s.isRecording then stopRecording s else startRecording s

/-- The `ondataavailable` handler installed by `startRecording`: a chunk is
retained only when its size is positive. -/
def dataAvailable (s : AppState) (size : Nat) : AppState :=
  if 0 < size then { s with recordedChunks := s.recordedChunks ++ [size] }
  else s

/-- The auto-record checkbox change handler (the handler itself only logs;
the checkbox state is read live by `detectFace`). -/
def setAutoRecord (s : AppState) (b : Bool) : AppState :=
  { s with autoRecord := b }

/-- `restartFaceDetection` of static/app.js: when active, stop and start the
detection loop again. -/
def restartDetection (s : AppState) : AppState :=
  if s.faceDetectionActive then startFaceDetection (stopFaceDetection s)
  else s

/-- The external events that drive a `FaceRecordingApp` instance: button
clicks, detection round-trips, MediaRecorder data delivery, timer firings and
settings changes. -/
inductive Op
  | startCamera
  | stopCamera
  | toggleManual
  | recTimerFire
  | detect (o : DetectOutcome)
  | dataAvailable (size : Nat)
  | setAutoRecord (b : Bool)
  | restartDetection
deriving DecidableEq, Repr

/-- Apply one external event to the app state. -/
def applyOp (s : AppState) : Op → AppState
  | .startCamera => startCamera s
  | .stopCamera => stopCamera s
  | .toggleManual => toggleManualRecording s
  | .recTimerFire => recTimerFire s
  | .detect o => detectFaceStep s o
  | .dataAvailable n => dataAvailable s n
  | .setAutoRecord b => setAutoRecord s b
  | .restartDetection => restartDetection s

/-- Run a sequence of external events from a given state. -/
def appRun (s : AppState) (ops : List Op) : AppState :=
  ops.foldl applyOp s

/-- The single-open-recorder invariant: the number of MediaRecorder objects
in the recording state is 1 exactly while `isRecording` holds. -/
def recInv (s : AppState) : Prop :=
  s.activeRecorders = (if s.isRecording then 1 else 0)

/-! The `FaceRecorder` client of app/static/js/app.js: WebSocket status
channel plus start/stop monitoring against the backend. -/

/-- State of the `FaceRecorder` class in app/static/js/app.js: whether
monitoring is flagged active, whether the WebSocket field is non-null, and
whether the camera stream is held. -/
structure FRState where
  isMonitoring : Bool
  websocket : Bool
  stream : Bool
deriving DecidableEq, Repr

/-- `stopMonitoring` of app/static/js/app.js.  The whole body sits in one
try block whose first statement awaits the POST to /stop; `fetchOk` is
whether that fetch resolves.  On success the WebSocket is closed and nulled,
the stream released and `isMonitoring` cleared; when the fetch rejects the
catch block only logs, so no field changes. -/
def stopMonitoring (fetchOk : Bool) (s : FRState) : FRState :=
  if fetchOk then { isMonitoring := false, websocket := false, stream := false }
  else s

/-- The `websocket.onclose` handler installed by `setupWebSocket`: invokes
`stopMonitoring` when monitoring is still flagged active. -/
def wsOnClose (fetchOk : Bool) (s : FRState) : FRState :=
  if s.isMonitoring then stopMonitoring fetchOk s else s

/-- The `websocket.onerror` handler installed by `setupWebSocket`: invokes
`stopMonitoring` unconditionally. -/
def wsOnError (fetchOk : Bool) (s : FRState) : FRState :=
  stopMonitoring fetchOk s

/-! The backend session controller, recording writer and catalog.  Their
Python sources (app/main.py, app/face_detection.py) are not among the
checked-in files, so they are modelled from the design document. -/

/-- Session states of the controller: Idle, Watching, Recording. -/
inductive SCState
  | idle
  | watching
  | recording
deriving DecidableEq, Repr

/-- Modelled from the spec: the Session record of the backend controller
(app/main.py, absent from the sources) with its state and the
consecutive-no-face counter. -/
structure Session where
  state : SCState
  consecutiveNoFaceFrames : Nat
deriving DecidableEq, Repr

/-- Configuration of the controller: the no-face frame threshold N, derived
from the no-face timeout duration and the observed frame rate (default
equivalent to 5 seconds). -/
structure SCConfig where
  noFaceThreshold : Nat
deriving DecidableEq, Repr

/-- A session that has just been started: Watching, counter zero. -/
def sessionStart : Session :=
  { state := .watching, consecutiveNoFaceFrames := 0 }

/-- Modelled from the spec: the detection branch of the backend controller
submitFrame (app/main.py, absent from the sources).  In Watching a detection
opens a recording and resets the counter; in Recording a detection resets
the counter, a non-detection increments it and, when it reaches the
threshold, finalizes the writer and moves back to Watching.  The second
component reports whether this frame closed a recording. -/
def scStep (cfg : SCConfig) (s : Session) (d : Bool) : Session × Bool :=
  match s.state with
  | .idle => (s, false)
  | .watching =>
      if d then ({ state := .recording, consecutiveNoFaceFrames := 0 }, false)
      else (s, false)
  | .recording =>
      if d then ({ s with consecutiveNoFaceFrames := 0 }, false)
      else
        let c := s.consecutiveNoFaceFrames + 1
        if cfg.noFaceThreshold ≤ c then
          ({ state := .watching, consecutiveNoFaceFrames := 0 }, true)
        else ({ s with consecutiveNoFaceFrames := c }, false)

/-- Run the controller over a list of detection results. -/
def scRun (cfg : SCConfig) (s : Session) (ds : List Bool) : Session :=
  ds.foldl (fun t d => (scStep cfg t d).1) s

/-- Whether processing the i-th detection result of `ds` (from a freshly
started session) closes a recording. -/
def closeAt (cfg : SCConfig) (ds : List Bool) (i : Nat) : Bool :=
  if i < ds.length then
    (scStep cfg (scRun cfg sessionStart (ds.take i)) (ds.getD i true)).2
  else false

/-- Modelled from the spec: the backend stop command (app/main.py, absent
from the sources): finalizes any open recording regardless of the counter
value and moves the session to Idle.  The second component reports whether a
recording was finalized. -/
def scStop (s : Session) : Session × Bool :=
  match s.state with
  | .recording => ({ state := .idle, consecutiveNoFaceFrames := 0 }, true)
  | _ => ({ state := .idle, consecutiveNoFaceFrames := 0 }, false)

/-- Writer status values. -/
inductive WriterStatus
  | opened
  | finalizing
  | closed
  | failed
deriving DecidableEq, Repr

/-- A catalog row: filename, size in bytes, duration in frames. -/
structure RecordingEntry where
  filename : String
  sizeBytes : Nat
  durationFrames : Nat
deriving DecidableEq, Repr

/-- Modelled from the spec: the backend RecordingWriter (absent from the
sources), with the entry cached by the first finalize. -/
structure RecWriter where
  filename : String
  frameCount : Nat
  byteSize : Nat
  status : WriterStatus
  cached : Option RecordingEntry
deriving DecidableEq, Repr

/-- Modelled from the spec: RecordingWriter finalize (backend, absent from
the sources): flushes and closes the artifact, computes the entry and caches
it; a second call returns the cached result rather than re-finalizing. -/
def finalizeWriter (w : RecWriter) : RecWriter × RecordingEntry :=
  match w.cached with
  | some e => (w, e)
  | none =>
      let e : RecordingEntry := ⟨w.filename, w.byteSize, w.frameCount⟩
      ({ w with status := .closed, cached := some e }, e)

/-- A recording as listed by the backend: filename, size, creation time. -/
structure CatEntry where
  filename : String
  size : Nat
  created : Nat
deriving DecidableEq, Repr

/-- Newest-first order on catalog entries: a comes before b when its
creation timestamp is at least that of b. -/
def newestFirst (a b : CatEntry) : Prop :=
  b.created ≤ a.created

instance : DecidableRel newestFirst := fun a b => Nat.decLe b.created a.created

instance : IsTotal CatEntry newestFirst :=
  ⟨fun a b => (Nat.le_total b.created a.created).elim Or.inl Or.inr⟩

instance : IsTrans CatEntry newestFirst :=
  ⟨fun _ _ _ h1 h2 => Nat.le_trans h2 h1⟩

/-- Modelled from the spec: the backend recordings listing (app/main.py,
absent from the sources): returns all entries found in the recordings
directory ordered newest-first by creation timestamp. -/
def catalogList (files : List CatEntry) : List CatEntry :=
  List.insertionSort newestFirst files

/-- One rendered item of the recordings list, as produced by
`displayRecordings` in static/app.js (filename, formatted size, creation
time, download link). -/
structure RenderedRecording where
  filename : String
  size : Nat
  created : Nat
deriving DecidableEq, Repr

/-- The per-entry template of `displayRecordings` in static/app.js. -/
def renderRecording (r : CatEntry) : RenderedRecording :=
  ⟨r.filename, r.size, r.created⟩

/-- `displayRecordings` of static/app.js: renders the received entries in
the order received (a plain map, no reordering). -/
def displayRecordings (rs : List CatEntry) : List RenderedRecording :=
  rs.map renderRecording

/-! Helper lemmas. -/

theorem getD_take_of_lt {α : Type} (l : List α) (d : α) :
    ∀ i j, j < i → (l.take i).getD j d = l.getD j d := by
  induction l with
  | nil => intro i j _; simp
  | cons a t ih =>
    intro i j hj
    cases i with
    | zero => omega
    | succ i =>
      cases j with
      | zero => simp
      | succ j => simpa using ih i j (by omega)

theorem scRun_append_singleton (cfg : SCConfig) (s : Session) (pre : List Bool) (d : Bool) :
    scRun cfg s (pre ++ [d]) = (scStep cfg (scRun cfg s pre) d).1 := by
  unfold scRun
  rw [List.foldl_append]
  rfl

theorem recInv_saveRecording (s : AppState) (h : recInv s) : recInv (saveRecording s) := by
  unfold saveRecording
  split
  · exact h
  · simpa [recInv] using h

theorem recInv_startRecording (s : AppState) (h : recInv s) : recInv (startRecording s) := by
  cases h1 : s.stream <;> cases h2 : s.isRecording <;>
    simp [startRecording, recInv, h1, h2] at h ⊢ <;> omega

theorem recInv_stopRecording (s : AppState) (h : recInv s) : recInv (stopRecording s) := by
  cases h1 : s.isRecording <;> cases h2 : s.hasMediaRecorder <;> simp [stopRecording, h1, h2]
  · exact h
  · exact h
  · exact h
  · apply recInv_saveRecording
    simp [recInv, h1] at h
    simp [recInv, h]

theorem recInv_startAutoRecording (s : AppState) (h : recInv s) :
    recInv (startAutoRecording s) := by
  have h1 := recInv_startRecording s h
  simpa [startAutoRecording, recInv] using h1

theorem recInv_startFaceDetection (s : AppState) (h : recInv s) :
    recInv (startFaceDetection s) := by
  unfold startFaceDetection
  split
  · exact h
  · simpa [recInv] using h

theorem recInv_stopFaceDetection (s : AppState) (h : recInv s) :
    recInv (stopFaceDetection s) := by
  simpa [stopFaceDetection, recInv] using h

theorem recInv_detectFaceStep (s : AppState) (o : DetectOutcome) (h : recInv s) :
    recInv (detectFaceStep s o) := by
  cases h1 : s.faceDetectionActive <;> cases h2 : s.stream <;>
    simp [detectFaceStep, h1, h2]
  · exact h
  · exact h
  · exact h
  · cases o with
    | success fd =>
        simp only []
        split
        · rename_i hc
          have h3 := recInv_startAutoRecording s h
          simpa [recInv] using h3
        · simpa [recInv] using h
    | failure => simpa [recInv] using h

theorem recInv_setStreamFalse (s : AppState) (h : recInv s) :
    recInv { s with stream := false } := by
  simpa [recInv] using h

theorem recInv_applyOp (s : AppState) (op : Op) (h : recInv s) : recInv (applyOp s op) := by
  cases op with
  | startCamera =>
      have h1 : recInv { s with stream := true } := by simpa [recInv] using h
      exact recInv_startFaceDetection _ h1
  | stopCamera =>
      show recInv (stopCamera s)
      unfold stopCamera
      apply recInv_setStreamFalse
      split
      · exact recInv_stopRecording _ (recInv_stopFaceDetection s h)
      · exact recInv_stopFaceDetection s h
  | toggleManual =>
      show recInv (toggleManualRecording s)
      unfold toggleManualRecording
      split
      · exact recInv_stopRecording s h
      · exact recInv_startRecording s h
  | recTimerFire =>
      show recInv (recTimerFire s)
      unfold recTimerFire
      split
      · exact recInv_stopRecording s h
      · exact h
  | detect o => exact recInv_detectFaceStep s o h
  | dataAvailable n =>
      show recInv (dataAvailable s n)
      unfold dataAvailable
      split
      · simpa [recInv] using h
      · exact h
  | setAutoRecord b =>
      show recInv (setAutoRecord s b)
      simpa [setAutoRecord, recInv] using h
  | restartDetection =>
      show recInv (restartDetection s)
      unfold restartDetection
      split
      · exact recInv_startFaceDetection _ (recInv_stopFaceDetection s h)
      · exact h

theorem recInv_appRun (ops : List Op) (s : AppState) (h : recInv s) :
    recInv (appRun s ops) := by
  induction ops generalizing s with
  | nil => exact h
  | cons op ops ih => exact ih _ (recInv_applyOp s op h)

theorem recInv_le_one (s : AppState) (h : recInv s) : s.activeRecorders ≤ 1 := by
  unfold recInv at h
  rw [h]
  split <;> omega

theorem scRun_recording_inv (cfg : SCConfig) (hN : 0 < cfg.noFaceThreshold)
    (pre : List Bool) (hrec : (scRun cfg sessionStart pre).state = .recording) :
    (scRun cfg sessionStart pre).consecutiveNoFaceFrames < cfg.noFaceThreshold ∧
    (scRun cfg sessionStart pre).consecutiveNoFaceFrames ≤ pre.length ∧
    ∀ j, pre.length - (scRun cfg sessionStart pre).consecutiveNoFaceFrames ≤ j →
      j < pre.length → pre.getD j true = false := by
  induction pre using List.reverseRecOn with
  | nil => simp [scRun, sessionStart] at hrec
  | append_singleton pre d ih =>
    rw [scRun_append_singleton] at hrec ⊢
    obtain ⟨st, c, hs⟩ : ∃ st c,
        scRun cfg sessionStart pre = ⟨st, c⟩ := ⟨_, _, rfl⟩
    rw [hs] at hrec ih ⊢
    cases st with
    | idle => simp [scStep] at hrec
    | watching =>
        cases d with
        | false => simp [scStep] at hrec
        | true =>
            simp only [scStep] at hrec ⊢
            refine ⟨hN, by simp, ?_⟩
            intro j hj1 hj2
            simp at hj1 hj2
            omega
    | recording =>
        obtain ⟨h1, h2, h3⟩ := ih rfl
        cases d with
        | true =>
            simp only [scStep] at hrec ⊢
            refine ⟨hN, by simp, ?_⟩
            intro j hj1 hj2
            simp at hj1 hj2
            omega
        | false =>
            simp only [scStep] at hrec ⊢
            by_cases hth : cfg.noFaceThreshold ≤ c + 1
            · simp [hth] at hrec
            · simp [scStep, hth] at hrec ⊢
              simp only [Session.mk.injEq] at h1 h2 h3
              refine ⟨by omega, by omega, ?_⟩
              intro j hj1 hj2
              rcases Nat.lt_or_ge j pre.length with hj | hj
              · rw [List.getElem?_append_left hj]
                have h4 := h3 j (by omega) hj
                simpa [List.getD_eq_getElem?_getD] using h4
              · rw [List.getElem?_append_right hj]
                have hj0 : j - pre.length = 0 := by omega
                rw [hj0]
                rfl

/-! Claim theorems. -/

/-- Claim C1: while a recording is open, a detection-driven close happens
only after exactly N consecutive no-face results, never earlier.  For every
detection sequence processed from a freshly started session, if processing
the i-th result closes a recording, then at least N results have been
processed and the N results ending at index i are all no-face. -/
theorem scClose_requires_threshold_run (cfg : SCConfig) (ds : List Bool) (i : Nat)
    (hN : 0 < cfg.noFaceThreshold) (h : closeAt cfg ds i = true) :
    cfg.noFaceThreshold ≤ i + 1 ∧
    ∀ j, i + 1 - cfg.noFaceThreshold ≤ j → j ≤ i → ds.getD j true = false := by
  unfold closeAt at h
  split at h
  case isFalse => simp at h
  case isTrue hi =>
    obtain ⟨st, c, hs⟩ : ∃ st c,
        scRun cfg sessionStart (ds.take i) = ⟨st, c⟩ := ⟨_, _, rfl⟩
    rw [hs] at h
    have hlen : (ds.take i).length = i := by
      rw [List.length_take]
      omega
    cases st with
    | idle => simp [scStep] at h
    | watching =>
        simp only [scStep] at h
        cases hd : ds.getD i true <;> rw [hd] at h <;> simp at h
    | recording =>
        simp only [scStep] at h
        cases hd : ds.getD i true with
        | true => rw [hd] at h; simp at h
        | false =>
            by_cases hth : cfg.noFaceThreshold ≤ c + 1
            · have hinv := scRun_recording_inv cfg hN (ds.take i) (by rw [hs])
              rw [hs] at hinv
              dsimp only at hinv
              obtain ⟨h1, h2, h3⟩ := hinv
              rw [hlen] at h2 h3
              refine ⟨by omega, ?_⟩
              intro j hj1 hj2
              rcases Nat.lt_or_ge j i with hj | hj
              · have h4 := h3 j (by omega) hj
                rwa [getD_take_of_lt ds true i j hj] at h4
              · have hj0 : j = i := by omega
                rw [hj0]
                exact hd
            · rw [hd] at h
              simp [hth] at h

/-- Witness for C1 at the spec's own scenario: threshold 3, detection
sequence from the spec, close at index 6 (the third consecutive no-face
frame of the run that started at index 4). -/
theorem scClose_requires_threshold_run_witness :
    0 < (⟨3⟩ : SCConfig).noFaceThreshold ∧
    closeAt ⟨3⟩ [false, false, true, true, false, false, false, false, false] 6 = true ∧
    ((⟨3⟩ : SCConfig).noFaceThreshold ≤ 6 + 1 ∧
     ∀ j, 6 + 1 - (⟨3⟩ : SCConfig).noFaceThreshold ≤ j → j ≤ 6 →
       [false, false, true, true, false, false, false, false, false].getD j true = false) :=
  ⟨by decide, by decide,
   scClose_requires_threshold_run ⟨3⟩
     [false, false, true, true, false, false, false, false, false] 6
     (by decide) (by decide)⟩

/-- Claim C2 counterexample: the claim that the very first `true` detection
evaluated while Watching always opens a recording fails on static/app.js.
`lastFaceDetected` is never reset by `stopCamera`/`stopFaceDetection`, so
after a session that ended while a face was visible, the next Watching
session's first `true` frame does not open a recording (the trigger demands
a rising edge `!lastFaceDetected`).  Concretely: auto-record on, camera
started, face detected (recording opens), camera stopped, camera started
again — the state is Watching with a stream and auto-record on, yet the next
`true` detection leaves `isRecording` false and opens no recorder. -/
theorem watching_true_frame_no_start_cex :
    (appRun initState [Op.setAutoRecord true, Op.startCamera,
      Op.detect (.success true), Op.stopCamera, Op.startCamera]).faceDetectionActive
        = true ∧
    (appRun initState [Op.setAutoRecord true, Op.startCamera,
      Op.detect (.success true), Op.stopCamera, Op.startCamera]).stream = true ∧
    (appRun initState [Op.setAutoRecord true, Op.startCamera,
      Op.detect (.success true), Op.stopCamera, Op.startCamera]).autoRecord = true ∧
    (appRun initState [Op.setAutoRecord true, Op.startCamera,
      Op.detect (.success true), Op.stopCamera, Op.startCamera]).isRecording = false ∧
    (detectFaceStep (appRun initState [Op.setAutoRecord true, Op.startCamera,
      Op.detect (.success true), Op.stopCamera, Op.startCamera])
        (.success true)).isRecording = false ∧
    (detectFaceStep (appRun initState [Op.setAutoRecord true, Op.startCamera,
      Op.detect (.success true), Op.stopCamera, Op.startCamera])
        (.success true)).activeRecorders = 0 := by
  decide

/-- Claim C2 (amended): a `true` detection evaluated while Watching (stream
held, detection active, auto-record enabled, not recording) opens a
recording immediately when it is a rising edge, i.e. when the previously
recorded detection result `lastFaceDetected` is false — which holds in
particular for a fresh app instance that has seen no face yet. -/
theorem risingEdge_true_frame_starts_recording (s : AppState)
    (h1 : s.faceDetectionActive = true) (h2 : s.stream = true)
    (h3 : s.autoRecord = true) (h4 : s.isRecording = false)
    (h5 : s.lastFaceDetected = false) :
    (detectFaceStep s (.success true)).isRecording = true ∧
    (detectFaceStep s (.success true)).activeRecorders = s.activeRecorders + 1 := by
  simp [detectFaceStep, startAutoRecording, startRecording, h1, h2, h3, h4, h5]

/-- Witness for the amended C2: the state after enabling auto-record and
starting the camera is Watching with no face seen yet; a `true` detection
opens a recording at once. -/
theorem risingEdge_true_frame_starts_recording_witness :
    (appRun initState [Op.setAutoRecord true, Op.startCamera]).faceDetectionActive
        = true ∧
    (appRun initState [Op.setAutoRecord true, Op.startCamera]).stream = true ∧
    (appRun initState [Op.setAutoRecord true, Op.startCamera]).autoRecord = true ∧
    (appRun initState [Op.setAutoRecord true, Op.startCamera]).isRecording = false ∧
    (appRun initState [Op.setAutoRecord true, Op.startCamera]).lastFaceDetected
        = false ∧
    (detectFaceStep (appRun initState [Op.setAutoRecord true, Op.startCamera])
      (.success true)).isRecording = true :=
  ⟨by decide, by decide, by decide, by decide, by decide,
   (risingEdge_true_frame_starts_recording _
     (by decide) (by decide) (by decide) (by decide) (by decide)).1⟩

/-- Claim C3: at most one recorder is ever open.  In every state reachable
from the constructor state by any sequence of UI events, detection results,
timer firings and data deliveries, the number of open MediaRecorder objects
is at most one, and attempting to open another recording from such a state
still leaves at most one open recorder (the `startRecording` guard makes the
attempt a no-op while one is open). -/
theorem at_most_one_open_recorder (ops : List Op) :
    (appRun initState ops).activeRecorders ≤ 1 ∧
    (startRecording (appRun initState ops)).activeRecorders ≤ 1 := by
  have h : recInv (appRun initState ops) := by
    apply recInv_appRun
    rfl
  exact ⟨recInv_le_one _ h, recInv_le_one _ (recInv_startRecording _ h)⟩

/-- Claim C4: an explicit stop finalizes any open recording immediately —
whatever the no-face counter holds, in particular below the threshold — and
leaves the session stopped.  For the modelled backend controller, `scStop`
from Recording finalizes the writer and yields Idle regardless of the
counter; for the static/app.js client, `stopCamera` while recording stops
the open recorder, stops detection and releases the stream. -/
theorem explicit_stop_finalizes (s : Session) (a : AppState)
    (hs : s.state = .recording) (ha : a.isRecording = true)
    (hm : a.hasMediaRecorder = true) :
    scStop s = ({ state := .idle, consecutiveNoFaceFrames := 0 }, true) ∧
    (stopCamera a).isRecording = false ∧
    (stopCamera a).faceDetectionActive = false ∧
    (stopCamera a).stream = false ∧
    (stopCamera a).activeRecorders = a.activeRecorders - 1 := by
  obtain ⟨st, c⟩ := s
  simp only at hs
  subst hs
  refine ⟨rfl, ?_, ?_, ?_, ?_⟩ <;>
    simp [stopCamera, stopFaceDetection, stopRecording, saveRecording, ha, hm] <;>
    split <;> simp

/-- Witness for C4: a session in Recording with the counter at 1 (below any
threshold of at least 2) and the client state reached by starting the camera
with auto-record on and detecting one face. -/
theorem explicit_stop_finalizes_witness :
    ((⟨.recording, 1⟩ : Session).state = .recording ∧
     (appRun initState [Op.setAutoRecord true, Op.startCamera,
        Op.detect (.success true)]).isRecording = true ∧
     (appRun initState [Op.setAutoRecord true, Op.startCamera,
        Op.detect (.success true)]).hasMediaRecorder = true) ∧
    scStop ⟨.recording, 1⟩ = ({ state := .idle, consecutiveNoFaceFrames := 0 }, true) ∧
    (stopCamera (appRun initState [Op.setAutoRecord true, Op.startCamera,
        Op.detect (.success true)])).isRecording = false ∧
    (stopCamera (appRun initState [Op.setAutoRecord true, Op.startCamera,
        Op.detect (.success true)])).faceDetectionActive = false ∧
    (stopCamera (appRun initState [Op.setAutoRecord true, Op.startCamera,
        Op.detect (.success true)])).stream = false ∧
    (stopCamera (appRun initState [Op.setAutoRecord true, Op.startCamera,
        Op.detect (.success true)])).activeRecorders
      = (appRun initState [Op.setAutoRecord true, Op.startCamera,
          Op.detect (.success true)]).activeRecorders - 1 :=
  ⟨⟨by decide, by decide, by decide⟩,
   explicit_stop_finalizes ⟨.recording, 1⟩ _ (by decide) (by decide) (by decide)⟩

/-- Claim C5: a failed or timed-out detector call is non-fatal.  In
static/app.js a failed /api/detect-face round-trip changes no recording
state (no recorder is opened or closed, no upload happens, the remembered
detection result is untouched) and, while detection is active with a live
stream, the next detection round is still scheduled. -/
theorem detector_failure_nonfatal (s : AppState) :
    (detectFaceStep s .failure).isRecording = s.isRecording ∧
    (detectFaceStep s .failure).activeRecorders = s.activeRecorders ∧
    (detectFaceStep s .failure).uploads = s.uploads ∧
    (detectFaceStep s .failure).lastFaceDetected = s.lastFaceDetected ∧
    (detectFaceStep s .failure).faceDetectionActive = s.faceDetectionActive ∧
    (s.faceDetectionActive = true → s.stream = true →
      (detectFaceStep s .failure).detectionTimer = true) := by
  cases h1 : s.faceDetectionActive <;> cases h2 : s.stream <;>
    simp [detectFaceStep, h1, h2]

/-- Witness for C5: after starting the camera, detection is active with a
stream, and a failed detector round keeps the loop alive. -/
theorem detector_failure_nonfatal_witness :
    (appRun initState [Op.startCamera]).faceDetectionActive = true ∧
    (appRun initState [Op.startCamera]).stream = true ∧
    (detectFaceStep (appRun initState [Op.startCamera]) .failure).detectionTimer
      = true :=
  ⟨by decide, by decide,
   (detector_failure_nonfatal _).2.2.2.2.2 (by decide) (by decide)⟩

/-- Claim C6: starting monitoring is idempotent.  `startFaceDetection` of
static/app.js returns at once when detection is already active, so calling
it twice in a row yields exactly the state of calling it once. -/
theorem startFaceDetection_idempotent (s : AppState) :
    startFaceDetection (startFaceDetection s) = startFaceDetection s := by
  cases h : s.faceDetectionActive <;> simp [startFaceDetection, h]

/-- Claim C7: finalizing is idempotent.  `stopRecording` of static/app.js is
a no-op on its second call (the guard sees `isRecording` already false), and
the modelled backend writer returns the cached entry from a second
`finalize` call, leaving the writer unchanged, rather than re-finalizing. -/
theorem finalize_idempotent (a : AppState) (w : RecWriter) :
    stopRecording (stopRecording a) = stopRecording a ∧
    (finalizeWriter (finalizeWriter w).1).2 = (finalizeWriter w).2 ∧
    (finalizeWriter (finalizeWriter w).1).1 = (finalizeWriter w).1 := by
  refine ⟨?_, ?_, ?_⟩
  · cases h1 : a.isRecording <;> cases h2 : a.hasMediaRecorder <;>
      simp [stopRecording, h1, h2]
    unfold saveRecording
    split <;> simp [stopRecording]
  · cases hc : w.cached <;> simp [finalizeWriter, hc]
  · cases hc : w.cached <;> simp [finalizeWriter, hc]

/-- Claim C8: listing recordings returns every entry ordered newest-first by
creation timestamp.  The modelled backend listing is sorted in decreasing
creation-time order for every catalog state, and the static/app.js renderer
displays the received entries in that order (a plain map preserves it). -/
theorem catalog_list_newest_first (files : List CatEntry) :
    List.Sorted newestFirst (catalogList files) ∧
    List.Pairwise (fun a b : RenderedRecording => b.created ≤ a.created)
      (displayRecordings (catalogList files)) := by
  have h : List.Sorted newestFirst (catalogList files) :=
    List.sorted_insertionSort newestFirst files
  refine ⟨h, ?_⟩
  unfold displayRecordings
  rw [List.pairwise_map]
  exact h.imp fun hab => hab

/-- Claim C9: an empty recording never produces an uploaded artifact.  When
the chunk buffer is empty, `saveRecording` of static/app.js returns without
uploading anything, and the `ondataavailable` handler discards zero-size
chunks, so only data-bearing chunks are ever retained. -/
theorem empty_recording_no_upload (s : AppState) (h : s.recordedChunks = []) :
    saveRecording s = s ∧
    (saveRecording s).uploads = s.uploads ∧
    dataAvailable s 0 = s := by
  refine ⟨?_, ?_, ?_⟩ <;> simp [saveRecording, dataAvailable, h]

/-- Witness for C9: the constructor state has an empty chunk buffer, and
`saveRecording` leaves it untouched. -/
theorem empty_recording_no_upload_witness :
    initState.recordedChunks = [] ∧
    saveRecording initState = initState ∧
    (saveRecording initState).uploads = initState.uploads ∧
    dataAvailable initState 0 = initState :=
  ⟨by decide, empty_recording_no_upload initState (by decide)⟩

/-- Claim C10 counterexample: the claim that `isMonitoring` is false once
the WebSocket close/error handler has run fails on app/static/js/app.js.
The whole of `stopMonitoring` sits in a try block whose first statement
awaits the POST to /stop; when that fetch rejects — the likely case exactly
when the socket has just dropped — the catch block only logs, so the
cleanup never runs.  Concretely: monitoring active, socket and stream held,
the close (or error) handler runs with the /stop fetch rejecting, and
`isMonitoring` is still true afterwards. -/
theorem ws_close_monitoring_persists_cex :
    (wsOnClose false ⟨true, true, true⟩).isMonitoring = true ∧
    (wsOnError false ⟨true, true, true⟩).isMonitoring = true := by
  decide

/-- Claim C10 (amended): if the status WebSocket closes or errors while
monitoring is active, the client invokes `stopMonitoring`; provided the POST
to /stop resolves, `isMonitoring` is false (and the socket and stream are
released) once the handler has run.  When the fetch rejects, the handler
leaves the state unchanged. -/
theorem ws_close_invokes_stopMonitoring (s : FRState) (h : s.isMonitoring = true) :
    (∀ b, wsOnClose b s = stopMonitoring b s ∧ wsOnError b s = stopMonitoring b s) ∧
    (wsOnClose true s).isMonitoring = false ∧
    (wsOnError true s).isMonitoring = false ∧
    (wsOnClose true s).websocket = false ∧
    (wsOnClose true s).stream = false := by
  refine ⟨fun b => ⟨?_, rfl⟩, ?_, ?_, ?_, ?_⟩ <;>
    simp [wsOnClose, wsOnError, stopMonitoring, h]

/-- Witness for the amended C10 at the monitoring state with socket and
stream held and a successful /stop request. -/
theorem ws_close_invokes_stopMonitoring_witness :
    (⟨true, true, true⟩ : FRState).isMonitoring = true ∧
    (wsOnClose true ⟨true, true, true⟩).isMonitoring = false ∧
    (wsOnError true ⟨true, true, true⟩).isMonitoring = false :=
  ⟨by decide,
   (ws_close_invokes_stopMonitoring ⟨true, true, true⟩ (by decide)).2.1,
   (ws_close_invokes_stopMonitoring ⟨true, true, true⟩ (by decide)).2.2.1⟩
